import Mathlib

/-!
Verification of the configuration layer of vim-clap
(`crates/maple_core/src/config.rs`).

The Rust code is shallowly embedded:
* TOML documents are modelled by the inductive `TomlV` (the abstract value
  tree produced by `toml::from_str`); the serde-derived deserializers with
  `rename_all = "kebab-case"`, container-level `default` and
  `deny_unknown_fields` are embedded as explicit `deserialize` functions on
  `TomlV`, and the serde `Serialize` derives as `serialize` functions.
* Rust `HashMap` fields are modelled as association lists with a first-match
  lookup (`tlookup`).
* The `OnceCell` statics `CONFIG` / `CONFIG_FILE` are modelled by an explicit
  state record `GlobalCells`; a `.expect` panic is modelled as
  `Except.error` with the panic message.
* File-system interaction of `load_config_on_startup` is modelled by a
  `DocSource` input (absent / unreadable / malformed text / parsed document)
  and by passing the `exists` predicate and config directory as parameters.
-/

/-- Abstract TOML value tree (output of the external TOML parser). -/
inductive TomlV : Type where
  | str (s : String)
  | int (n : Int)
  | bool (b : Bool)
  | arr (xs : List TomlV)
  | table (kvs : List (String × TomlV))

/-- First-match association-list lookup, modelling `HashMap::get` and the
lookup of a key in a TOML table. -/
def tlookup {α : Type} : List (String × α) → String → Option α
  | [], _ => none
  | (k, v) :: rest, key => if key = k then some v else tlookup rest key

/-- Membership of a key in the list of allowed field names. -/
def keyAllowed (k : String) : List String → Bool
  | [] => false
  | a :: rest => if k = a then true else keyAllowed k rest

/-- Check that every key of a TOML table is an allowed field name; this is
the `deny_unknown_fields` check of the serde derive. -/
def checkKeys : List (String × TomlV) → List String → Bool
  | [], _ => true
  | (k, _) :: rest, allowed => keyAllowed k allowed && checkKeys rest allowed

/-- Whether an `Except` result is a success. -/
def isOk {α : Type} : Except String α → Bool
  | .ok _ => true
  | .error _ => false

/-- Error-propagating map over a list (the effect of deserializing each
entry of a TOML table or array in turn). -/
def mapME {α β : Type} (f : α → Except String β) : List α → Except String (List β)
  | [] => .ok []
  | a :: rest =>
    match f a, mapME f rest with
    | .ok b, .ok bs => .ok (b :: bs)
    | .error e, _ => .error e
    | .ok _, .error e => .error e

/-- Modelled from the spec: the sort criteria of the matcher. The type
`RankCriterion` and the parser `types::parse_criteria` live in the
`types` crate, which is not part of the sample; the spec fixes that the
default tiebreak string `"score,-begin,-end,-length"` parses to the ordered
sequence Score, Begin(desc), End(desc), Length(desc). -/
inductive RankCriterion : Type where
  | score
  | beginDesc
  | endDesc
  | lengthDesc
deriving DecidableEq

/-- Modelled from the spec: `types::parse_criteria`, a partial parser of a
single criterion token, returning `none` on an unrecognized token. -/
def parse_criteria : String → Option RankCriterion
  | "score" => some .score
  | "-begin" => some .beginDesc
  | "-end" => some .endDesc
  | "-length" => some .lengthDesc
  | _ => none

/-- `MatcherConfig` of `config.rs`. -/
structure MatcherConfig : Type where
  tiebreak : String
deriving DecidableEq

/-- `impl Default for MatcherConfig`. -/
def MatcherConfig.default : MatcherConfig :=
  ⟨"score,-begin,-end,-length"⟩

/-- Rust `str::split(',')` embedded on the character list: split at every
comma; the empty string yields one empty token. -/
def splitCommaAux : List Char → List Char → List String
  | [], acc => [String.mk acc.reverse]
  | c :: rest, acc =>
    if c = ',' then String.mk acc.reverse :: splitCommaAux rest []
    else splitCommaAux rest (c :: acc)

/-- Split a string at commas (Rust `split(',')`). -/
def splitComma (s : String) : List String :=
  splitCommaAux s.toList []

/-- ASCII whitespace, for `str::trim`. -/
def isWhitespaceChar (c : Char) : Bool :=
  c = ' ' || c = '\t' || c = '\n' || c = '\r'

/-- Rust `str::trim` embedded on the character list: drop whitespace from
both ends. -/
def trimChars (s : String) : String :=
  String.mk (((s.toList.dropWhile isWhitespaceChar).reverse.dropWhile
    isWhitespaceChar).reverse)

/-- `MatcherConfig::rank_criteria`: split the tiebreak string on commas,
trim each token, and keep the tokens that parse. -/
def MatcherConfig.rank_criteria (m : MatcherConfig) : List RankCriterion :=
  (splitComma m.tiebreak).filterMap (fun s => parse_criteria (trimChars s))

/-- `LogConfig` of `config.rs`. -/
structure LogConfig : Type where
  log_file : Option String
  max_level : String
  log_target : String
deriving DecidableEq

/-- `impl Default for LogConfig`. -/
def LogConfig.default : LogConfig :=
  ⟨none, "debug", ""⟩

/-- `CursorWordConfig` of `config.rs`. -/
structure CursorWordConfig : Type where
  enable : Bool
  ignore_comment_line : Bool
  ignore_files : String
deriving DecidableEq

/-- `impl Default for CursorWordConfig`. -/
def CursorWordConfig.default : CursorWordConfig :=
  ⟨false, false, "*.toml,*.json,*.yml,*.log,tmp"⟩

/-- `MarkdownPluginConfig` of `config.rs` (derived `Default`). -/
structure MarkdownPluginConfig : Type where
  enable : Bool
deriving DecidableEq

/-- Derived `Default` for `MarkdownPluginConfig`. -/
def MarkdownPluginConfig.default : MarkdownPluginConfig :=
  ⟨false⟩

/-- `CtagsPluginConfig` of `config.rs`. -/
structure CtagsPluginConfig : Type where
  enable : Bool
  max_file_size : Nat
deriving DecidableEq

/-- `impl Default for CtagsPluginConfig`: disabled, 4 MiB limit. -/
def CtagsPluginConfig.default : CtagsPluginConfig :=
  ⟨false, 4 * 1024 * 1024⟩

/-- `GitPluginConfig` of `config.rs`. -/
structure GitPluginConfig : Type where
  enable : Bool
  blame_format_string : Option String
deriving DecidableEq

/-- `impl Default for GitPluginConfig`: enabled by default. -/
def GitPluginConfig.default : GitPluginConfig :=
  ⟨true, none⟩

/-- `ColorizerPluginConfig` of `config.rs` (derived `Default`). -/
structure ColorizerPluginConfig : Type where
  enable : Bool
deriving DecidableEq

/-- Derived `Default` for `ColorizerPluginConfig`. -/
def ColorizerPluginConfig.default : ColorizerPluginConfig :=
  ⟨false⟩

/-- `LinterPluginConfig` of `config.rs` (derived `Default`). -/
structure LinterPluginConfig : Type where
  enable : Bool
deriving DecidableEq

/-- Derived `Default` for `LinterPluginConfig`. -/
def LinterPluginConfig.default : LinterPluginConfig :=
  ⟨false⟩

/-- `RenderStrategy` of `config.rs`: an adjacently tagged enum with tag
field `strategy` and content field `file-size-limit`. -/
inductive RenderStrategy : Type where
  | visualLines
  | entireBufferUpToLimit (limit : Nat)
deriving DecidableEq

/-- `impl Default for RenderStrategy`: entire buffer up to 256 KiB. -/
def RenderStrategy.default : RenderStrategy :=
  .entireBufferUpToLimit (256 * 1024)

/-- `SyntaxPluginConfig` of `config.rs`. The Rust field is named `syntax`
inside `PluginConfig`; here the Lean field is `stx` (keyword clash), the
serialized key stays `"syntax"`. -/
structure SyntaxPluginConfig : Type where
  render_strategy : RenderStrategy
deriving DecidableEq

/-- Derived `Default` for `SyntaxPluginConfig`. -/
def SyntaxPluginConfig.default : SyntaxPluginConfig :=
  ⟨RenderStrategy.default⟩

/-- `PluginConfig` of `config.rs` (derived `Default`); the Rust field
`syntax` is called `stx` here because `syntax` is a Lean keyword. -/
structure PluginConfig : Type where
  colorizer : ColorizerPluginConfig
  cursorword : CursorWordConfig
  ctags : CtagsPluginConfig
  git : GitPluginConfig
  linter : LinterPluginConfig
  markdown : MarkdownPluginConfig
  stx : SyntaxPluginConfig
deriving DecidableEq

/-- Derived `Default` for `PluginConfig`. -/
def PluginConfig.default : PluginConfig :=
  ⟨ColorizerPluginConfig.default, CursorWordConfig.default, CtagsPluginConfig.default,
   GitPluginConfig.default, LinterPluginConfig.default, MarkdownPluginConfig.default,
   SyntaxPluginConfig.default⟩

/-- `IgnoreConfig` of `config.rs` (derived `Default`). -/
structure IgnoreConfig : Type where
  ignore_comments : Bool
  git_tracked_only : Bool
  ignore_file_name_pattern : List String
  ignore_file_path_pattern : List String
deriving DecidableEq

/-- Derived `Default` for `IgnoreConfig`. -/
def IgnoreConfig.default : IgnoreConfig :=
  ⟨false, false, [], []⟩

/-- `HighlightEngine` of `config.rs`. -/
inductive HighlightEngine : Type where
  | sublimeSyntax
  | treeSitter
  | vim
deriving DecidableEq

/-- Derived `Default` for `HighlightEngine` (`#[default] Vim`). -/
def HighlightEngine.default : HighlightEngine :=
  .vim

/-- `ProviderConfig` of `config.rs` (derived `Default`). The `HashMap`
fields (`project_ignores` keyed by `AbsPathBuf`, `provider_ignores` and
`debounce` keyed by `String`) are modelled as association lists with
string keys. -/
structure ProviderConfig : Type where
  share_input_history : Bool
  max_display_size : Option Nat
  preview_highlight_engine : HighlightEngine
  sublime_syntax_color_scheme : Option String
  project_ignores : List (String × IgnoreConfig)
  provider_ignores : List (String × IgnoreConfig)
  debounce : List (String × Nat)
deriving DecidableEq

/-- Derived `Default` for `ProviderConfig`. -/
def ProviderConfig.default : ProviderConfig :=
  ⟨false, none, HighlightEngine.default, none, [], [], []⟩

/-- `Config` of `config.rs` (derived `Default`). -/
structure Config : Type where
  log : LogConfig
  matcher : MatcherConfig
  plugin : PluginConfig
  provider : ProviderConfig
  global_ignore : IgnoreConfig
deriving DecidableEq

/-- Derived `Default` for `Config`. -/
def Config.default : Config :=
  ⟨LogConfig.default, MatcherConfig.default, PluginConfig.default,
   ProviderConfig.default, IgnoreConfig.default⟩

/-- `Config::ignore_config`: provider-specific ignores, else
project-specific ignores, else the global ignore configuration. -/
def Config.ignore_config (c : Config) (provider_id : String) (project_dir : String) :
    IgnoreConfig :=
  (Option.orElse (tlookup c.provider.provider_ignores provider_id)
    (fun _ => tlookup c.provider.project_ignores project_dir)).getD c.global_ignore

/-- `Config::provider_debounce`: the provider entry of the debounce map,
else the wildcard entry, else `DEFAULT_DEBOUNCE = 200`. -/
def Config.provider_debounce (c : Config) (provider_id : String) : Nat :=
  (Option.orElse (tlookup c.provider.debounce provider_id)
    (fun _ => tlookup c.provider.debounce "*")).getD 200

/-! ## Field-level deserialization primitives (serde semantics) -/

/-- Deserialize a TOML boolean. -/
def parseBool : TomlV → Except String Bool
  | .bool b => .ok b
  | _ => .error "invalid type: expected boolean"

/-- Deserialize a TOML string. -/
def parseStr : TomlV → Except String String
  | .str s => .ok s
  | _ => .error "invalid type: expected string"

/-- Deserialize an unsigned integer (`u64` / `usize`). -/
def parseNat : TomlV → Except String Nat
  | .int (Int.ofNat n) => .ok n
  | _ => .error "invalid type: expected unsigned integer"

/-- Deserialize an array of strings. -/
def parseStrList : TomlV → Except String (List String)
  | .arr xs => mapME parseStr xs
  | _ => .error "invalid type: expected array of strings"

/-- Deserialize a struct field under container-level `#[serde(default)]`:
a missing key yields the field default, a present key must parse. -/
def parseFieldD {α : Type} (kvs : List (String × TomlV)) (key : String)
    (p : TomlV → Except String α) (d : α) : Except String α :=
  match tlookup kvs key with
  | none => .ok d
  | some v => p v

/-- Deserialize an `Option` field: a missing key is `none`, a present key
must parse to the payload. -/
def parseFieldOpt {α : Type} (kvs : List (String × TomlV)) (key : String)
    (p : TomlV → Except String α) : Except String (Option α) :=
  match tlookup kvs key with
  | none => .ok none
  | some v =>
    match p v with
    | .ok a => .ok (some a)
    | .error e => .error e

/-- Deserialize one entry of a map-valued field. -/
def parseKV {α : Type} (p : TomlV → Except String α) (kv : String × TomlV) :
    Except String (String × α) :=
  match p kv.2 with
  | .ok a => .ok (kv.1, a)
  | .error e => .error e

/-- Deserialize a `HashMap` field: a missing key yields the empty map,
arbitrary keys are accepted, every value must parse. -/
def parseMapField {α : Type} (kvs : List (String × TomlV)) (key : String)
    (p : TomlV → Except String α) : Except String (List (String × α)) :=
  match tlookup kvs key with
  | none => .ok []
  | some (.table m) => mapME (parseKV p) m
  | some _ => .error "invalid type: expected table"

/-! ## Deserializers, one per `#[derive(Deserialize)]` struct -/

/-- Field names of `IgnoreConfig` (kebab-case). -/
def IgnoreConfig.keys : List String :=
  ["ignore-comments", "git-tracked-only", "ignore-file-name-pattern",
   "ignore-file-path-pattern"]

/-- Serde-derived deserializer of `IgnoreConfig`
(`rename_all = "kebab-case", default, deny_unknown_fields`). -/
def IgnoreConfig.deserialize : TomlV → Except String IgnoreConfig
  | .table kvs =>
    if checkKeys kvs IgnoreConfig.keys then
      match parseFieldD kvs "ignore-comments" parseBool false,
            parseFieldD kvs "git-tracked-only" parseBool false,
            parseFieldD kvs "ignore-file-name-pattern" parseStrList [],
            parseFieldD kvs "ignore-file-path-pattern" parseStrList [] with
      | .ok a, .ok b, .ok c, .ok d => .ok ⟨a, b, c, d⟩
      | .error e, _, _, _ => .error e
      | _, .error e, _, _ => .error e
      | _, _, .error e, _ => .error e
      | _, _, _, .error e => .error e
    else .error "unknown field"
  | _ => .error "invalid type: expected table"

/-- Field names of `LogConfig` (kebab-case). -/
def LogConfig.keys : List String :=
  ["log-file", "max-level", "log-target"]

/-- Serde-derived deserializer of `LogConfig`. -/
def LogConfig.deserialize : TomlV → Except String LogConfig
  | .table kvs =>
    if checkKeys kvs LogConfig.keys then
      match parseFieldOpt kvs "log-file" parseStr,
            parseFieldD kvs "max-level" parseStr "debug",
            parseFieldD kvs "log-target" parseStr "" with
      | .ok a, .ok b, .ok c => .ok ⟨a, b, c⟩
      | .error e, _, _ => .error e
      | _, .error e, _ => .error e
      | _, _, .error e => .error e
    else .error "unknown field"
  | _ => .error "invalid type: expected table"

/-- Field names of `MatcherConfig` (kebab-case). -/
def MatcherConfig.keys : List String :=
  ["tiebreak"]

/-- Serde-derived deserializer of `MatcherConfig`. -/
def MatcherConfig.deserialize : TomlV → Except String MatcherConfig
  | .table kvs =>
    if checkKeys kvs MatcherConfig.keys then
      match parseFieldD kvs "tiebreak" parseStr "score,-begin,-end,-length" with
      | .ok a => .ok ⟨a⟩
      | .error e => .error e
    else .error "unknown field"
  | _ => .error "invalid type: expected table"

/-- Field names of `CursorWordConfig` (kebab-case). -/
def CursorWordConfig.keys : List String :=
  ["enable", "ignore-comment-line", "ignore-files"]

/-- Serde-derived deserializer of `CursorWordConfig`. -/
def CursorWordConfig.deserialize : TomlV → Except String CursorWordConfig
  | .table kvs =>
    if checkKeys kvs CursorWordConfig.keys then
      match parseFieldD kvs "enable" parseBool false,
            parseFieldD kvs "ignore-comment-line" parseBool false,
            parseFieldD kvs "ignore-files" parseStr CursorWordConfig.default.ignore_files with
      | .ok a, .ok b, .ok c => .ok ⟨a, b, c⟩
      | .error e, _, _ => .error e
      | _, .error e, _ => .error e
      | _, _, .error e => .error e
    else .error "unknown field"
  | _ => .error "invalid type: expected table"

/-- Field names of `MarkdownPluginConfig` (kebab-case). -/
def MarkdownPluginConfig.keys : List String :=
  ["enable"]

/-- Serde-derived deserializer of `MarkdownPluginConfig`. -/
def MarkdownPluginConfig.deserialize : TomlV → Except String MarkdownPluginConfig
  | .table kvs =>
    if checkKeys kvs MarkdownPluginConfig.keys then
      match parseFieldD kvs "enable" parseBool false with
      | .ok a => .ok ⟨a⟩
      | .error e => .error e
    else .error "unknown field"
  | _ => .error "invalid type: expected table"

/-- Field names of `CtagsPluginConfig` (kebab-case). -/
def CtagsPluginConfig.keys : List String :=
  ["enable", "max-file-size"]

/-- Serde-derived deserializer of `CtagsPluginConfig`. -/
def CtagsPluginConfig.deserialize : TomlV → Except String CtagsPluginConfig
  | .table kvs =>
    if checkKeys kvs CtagsPluginConfig.keys then
      match parseFieldD kvs "enable" parseBool false,
            parseFieldD kvs "max-file-size" parseNat (4 * 1024 * 1024) with
      | .ok a, .ok b => .ok ⟨a, b⟩
      | .error e, _ => .error e
      | _, .error e => .error e
    else .error "unknown field"
  | _ => .error "invalid type: expected table"

/-- Field names of `GitPluginConfig` (kebab-case). -/
def GitPluginConfig.keys : List String :=
  ["enable", "blame-format-string"]

/-- Serde-derived deserializer of `GitPluginConfig`. -/
def GitPluginConfig.deserialize : TomlV → Except String GitPluginConfig
  | .table kvs =>
    if checkKeys kvs GitPluginConfig.keys then
      match parseFieldD kvs "enable" parseBool true,
            parseFieldOpt kvs "blame-format-string" parseStr with
      | .ok a, .ok b => .ok ⟨a, b⟩
      | .error e, _ => .error e
      | _, .error e => .error e
    else .error "unknown field"
  | _ => .error "invalid type: expected table"

/-- Field names of `ColorizerPluginConfig` (kebab-case). -/
def ColorizerPluginConfig.keys : List String :=
  ["enable"]

/-- Serde-derived deserializer of `ColorizerPluginConfig`. -/
def ColorizerPluginConfig.deserialize : TomlV → Except String ColorizerPluginConfig
  | .table kvs =>
    if checkKeys kvs ColorizerPluginConfig.keys then
      match parseFieldD kvs "enable" parseBool false with
      | .ok a => .ok ⟨a⟩
      | .error e => .error e
    else .error "unknown field"
  | _ => .error "invalid type: expected table"

/-- Field names of `LinterPluginConfig` (kebab-case). -/
def LinterPluginConfig.keys : List String :=
  ["enable"]

/-- Serde-derived deserializer of `LinterPluginConfig`. -/
def LinterPluginConfig.deserialize : TomlV → Except String LinterPluginConfig
  | .table kvs =>
    if checkKeys kvs LinterPluginConfig.keys then
      match parseFieldD kvs "enable" parseBool false with
      | .ok a => .ok ⟨a⟩
      | .error e => .error e
    else .error "unknown field"
  | _ => .error "invalid type: expected table"

/-- Tag and content field names of `RenderStrategy`
(`tag = "strategy", content = "file-size-limit"`). -/
def RenderStrategy.keys : List String :=
  ["strategy", "file-size-limit"]

/-- Serde-derived deserializer of the adjacently tagged `RenderStrategy`. -/
def RenderStrategy.deserialize : TomlV → Except String RenderStrategy
  | .table kvs =>
    if checkKeys kvs RenderStrategy.keys then
      match tlookup kvs "strategy" with
      | some (.str "visual-lines") =>
        match tlookup kvs "file-size-limit" with
        | none => .ok .visualLines
        | some _ => .error "invalid content for unit variant"
      | some (.str "entire-buffer-up-to-limit") =>
        match tlookup kvs "file-size-limit" with
        | some v =>
          match parseNat v with
          | .ok n => .ok (.entireBufferUpToLimit n)
          | .error e => .error e
        | none => .error "missing field file-size-limit"
      | some _ => .error "unknown variant"
      | none => .error "missing field strategy"
    else .error "unknown field"
  | _ => .error "invalid type: expected table"

/-- Field names of `SyntaxPluginConfig` (kebab-case). -/
def SyntaxPluginConfig.keys : List String :=
  ["render-strategy"]

/-- Serde-derived deserializer of `SyntaxPluginConfig`. -/
def SyntaxPluginConfig.deserialize : TomlV → Except String SyntaxPluginConfig
  | .table kvs =>
    if checkKeys kvs SyntaxPluginConfig.keys then
      match parseFieldD kvs "render-strategy" RenderStrategy.deserialize
              RenderStrategy.default with
      | .ok a => .ok ⟨a⟩
      | .error e => .error e
    else .error "unknown field"
  | _ => .error "invalid type: expected table"

/-- Field names of `PluginConfig` (kebab-case). -/
def PluginConfig.keys : List String :=
  ["colorizer", "cursorword", "ctags", "git", "linter", "markdown", "syntax"]

/-- Serde-derived deserializer of `PluginConfig`. -/
def PluginConfig.deserialize : TomlV → Except String PluginConfig
  | .table kvs =>
    if checkKeys kvs PluginConfig.keys then
      match parseFieldD kvs "colorizer" ColorizerPluginConfig.deserialize
              ColorizerPluginConfig.default,
            parseFieldD kvs "cursorword" CursorWordConfig.deserialize
              CursorWordConfig.default,
            parseFieldD kvs "ctags" CtagsPluginConfig.deserialize
              CtagsPluginConfig.default,
            parseFieldD kvs "git" GitPluginConfig.deserialize
              GitPluginConfig.default,
            parseFieldD kvs "linter" LinterPluginConfig.deserialize
              LinterPluginConfig.default,
            parseFieldD kvs "markdown" MarkdownPluginConfig.deserialize
              MarkdownPluginConfig.default,
            parseFieldD kvs "syntax" SyntaxPluginConfig.deserialize
              SyntaxPluginConfig.default with
      | .ok a, .ok b, .ok c, .ok d, .ok e, .ok f, .ok g => .ok ⟨a, b, c, d, e, f, g⟩
      | .error e, _, _, _, _, _, _ => .error e
      | _, .error e, _, _, _, _, _ => .error e
      | _, _, .error e, _, _, _, _ => .error e
      | _, _, _, .error e, _, _, _ => .error e
      | _, _, _, _, .error e, _, _ => .error e
      | _, _, _, _, _, .error e, _ => .error e
      | _, _, _, _, _, _, .error e => .error e
    else .error "unknown field"
  | _ => .error "invalid type: expected table"

/-- Serde-derived deserializer of `HighlightEngine` (kebab-case variants). -/
def HighlightEngine.deserialize : TomlV → Except String HighlightEngine
  | .str "sublime-syntax" => .ok .sublimeSyntax
  | .str "tree-sitter" => .ok .treeSitter
  | .str "vim" => .ok .vim
  | _ => .error "unknown variant"

/-- Field names of `ProviderConfig` (kebab-case). -/
def ProviderConfig.keys : List String :=
  ["share-input-history", "max-display-size", "preview-highlight-engine",
   "sublime-syntax-color-scheme", "project-ignores", "provider-ignores",
   "debounce"]

/-- Serde-derived deserializer of `ProviderConfig`. -/
def ProviderConfig.deserialize : TomlV → Except String ProviderConfig
  | .table kvs =>
    if checkKeys kvs ProviderConfig.keys then
      match parseFieldD kvs "share-input-history" parseBool false,
            parseFieldOpt kvs "max-display-size" parseNat,
            parseFieldD kvs "preview-highlight-engine" HighlightEngine.deserialize
              HighlightEngine.default,
            parseFieldOpt kvs "sublime-syntax-color-scheme" parseStr,
            parseMapField kvs "project-ignores" IgnoreConfig.deserialize,
            parseMapField kvs "provider-ignores" IgnoreConfig.deserialize,
            parseMapField kvs "debounce" parseNat with
      | .ok a, .ok b, .ok c, .ok d, .ok e, .ok f, .ok g => .ok ⟨a, b, c, d, e, f, g⟩
      | .error e, _, _, _, _, _, _ => .error e
      | _, .error e, _, _, _, _, _ => .error e
      | _, _, .error e, _, _, _, _ => .error e
      | _, _, _, .error e, _, _, _ => .error e
      | _, _, _, _, .error e, _, _ => .error e
      | _, _, _, _, _, .error e, _ => .error e
      | _, _, _, _, _, _, .error e => .error e
    else .error "unknown field"
  | _ => .error "invalid type: expected table"

/-- Field names of `Config` (kebab-case). -/
def Config.keys : List String :=
  ["log", "matcher", "plugin", "provider", "global-ignore"]

/-- Serde-derived deserializer of the root `Config`
(the effect of `toml::from_str::<Config>` on a syntactically valid
document). -/
def Config.deserialize : TomlV → Except String Config
  | .table kvs =>
    if checkKeys kvs Config.keys then
      match parseFieldD kvs "log" LogConfig.deserialize LogConfig.default,
            parseFieldD kvs "matcher" MatcherConfig.deserialize MatcherConfig.default,
            parseFieldD kvs "plugin" PluginConfig.deserialize PluginConfig.default,
            parseFieldD kvs "provider" ProviderConfig.deserialize ProviderConfig.default,
            parseFieldD kvs "global-ignore" IgnoreConfig.deserialize
              IgnoreConfig.default with
      | .ok a, .ok b, .ok c, .ok d, .ok e => .ok ⟨a, b, c, d, e⟩
      | .error e, _, _, _, _ => .error e
      | _, .error e, _, _, _ => .error e
      | _, _, .error e, _, _ => .error e
      | _, _, _, .error e, _ => .error e
      | _, _, _, _, .error e => .error e
    else .error "unknown field"
  | _ => .error "invalid type: expected table"

/-! ## Serializers, one per `#[derive(Serialize)]` struct -/

/-- Serialize an optional field: the TOML serializer skips `None` fields. -/
def optField {α : Type} (key : String) (f : α → TomlV) : Option α → List (String × TomlV)
  | none => []
  | some a => [(key, f a)]

/-- Serialize a list of strings. -/
def strListV (l : List String) : TomlV :=
  .arr (l.map .str)

/-- Serialize an unsigned integer. -/
def natV (n : Nat) : TomlV :=
  .int (Int.ofNat n)

/-- Serialize a `HashMap` field as a TOML table. -/
def serializeMap {α : Type} (f : α → TomlV) (l : List (String × α)) : TomlV :=
  .table (l.map (fun kv => (kv.1, f kv.2)))

/-- Serde-derived serializer of `IgnoreConfig`. -/
def IgnoreConfig.serialize (x : IgnoreConfig) : TomlV :=
  .table [("ignore-comments", .bool x.ignore_comments),
          ("git-tracked-only", .bool x.git_tracked_only),
          ("ignore-file-name-pattern", strListV x.ignore_file_name_pattern),
          ("ignore-file-path-pattern", strListV x.ignore_file_path_pattern)]

/-- Serde-derived serializer of `LogConfig`. -/
def LogConfig.serialize (x : LogConfig) : TomlV :=
  .table (optField "log-file" .str x.log_file ++
          [("max-level", .str x.max_level), ("log-target", .str x.log_target)])

/-- Serde-derived serializer of `MatcherConfig`. -/
def MatcherConfig.serialize (x : MatcherConfig) : TomlV :=
  .table [("tiebreak", .str x.tiebreak)]

/-- Serde-derived serializer of `CursorWordConfig`. -/
def CursorWordConfig.serialize (x : CursorWordConfig) : TomlV :=
  .table [("enable", .bool x.enable),
          ("ignore-comment-line", .bool x.ignore_comment_line),
          ("ignore-files", .str x.ignore_files)]

/-- Serde-derived serializer of `MarkdownPluginConfig`. -/
def MarkdownPluginConfig.serialize (x : MarkdownPluginConfig) : TomlV :=
  .table [("enable", .bool x.enable)]

/-- Serde-derived serializer of `CtagsPluginConfig`. -/
def CtagsPluginConfig.serialize (x : CtagsPluginConfig) : TomlV :=
  .table [("enable", .bool x.enable),
          ("max-file-size", natV x.max_file_size)]

/-- Serde-derived serializer of `GitPluginConfig`. -/
def GitPluginConfig.serialize (x : GitPluginConfig) : TomlV :=
  .table (("enable", .bool x.enable) ::
          optField "blame-format-string" .str x.blame_format_string)

/-- Serde-derived serializer of `ColorizerPluginConfig`. -/
def ColorizerPluginConfig.serialize (x : ColorizerPluginConfig) : TomlV :=
  .table [("enable", .bool x.enable)]

/-- Serde-derived serializer of `LinterPluginConfig`. -/
def LinterPluginConfig.serialize (x : LinterPluginConfig) : TomlV :=
  .table [("enable", .bool x.enable)]

/-- Serde-derived serializer of the adjacently tagged `RenderStrategy`. -/
def RenderStrategy.serialize : RenderStrategy → TomlV
  | .visualLines => .table [("strategy", .str "visual-lines")]
  | .entireBufferUpToLimit n =>
    .table [("strategy", .str "entire-buffer-up-to-limit"),
            ("file-size-limit", natV n)]

/-- Serde-derived serializer of `SyntaxPluginConfig`. -/
def SyntaxPluginConfig.serialize (x : SyntaxPluginConfig) : TomlV :=
  .table [("render-strategy", x.render_strategy.serialize)]

/-- Serde-derived serializer of `PluginConfig`. -/
def PluginConfig.serialize (x : PluginConfig) : TomlV :=
  .table [("colorizer", x.colorizer.serialize),
          ("cursorword", x.cursorword.serialize),
          ("ctags", x.ctags.serialize),
          ("git", x.git.serialize),
          ("linter", x.linter.serialize),
          ("markdown", x.markdown.serialize),
          ("syntax", ( PluginConfig.stx x).serialize)]

/-- Serde-derived serializer of `HighlightEngine`. -/
def HighlightEngine.serialize : HighlightEngine → TomlV
  | .sublimeSyntax => .str "sublime-syntax"
  | .treeSitter => .str "tree-sitter"
  | .vim => .str "vim"

/-- Serde-derived serializer of `ProviderConfig`. -/
def ProviderConfig.serialize (x : ProviderConfig) : TomlV :=
  .table (("share-input-history", .bool x.share_input_history) ::
          optField "max-display-size" natV x.max_display_size ++
          [("preview-highlight-engine", x.preview_highlight_engine.serialize)] ++
          optField "sublime-syntax-color-scheme" .str x.sublime_syntax_color_scheme ++
          [("project-ignores", serializeMap IgnoreConfig.serialize x.project_ignores),
           ("provider-ignores", serializeMap IgnoreConfig.serialize x.provider_ignores),
           ("debounce", serializeMap natV x.debounce)])

/-- Serde-derived serializer of the root `Config`. -/
def Config.serialize (x : Config) : TomlV :=
  .table [("log", x.log.serialize),
          ("matcher", x.matcher.serialize),
          ("plugin", x.plugin.serialize),
          ("provider", x.provider.serialize),
          ("global-ignore", x.global_ignore.serialize)]

/-! ## Loader and process-wide singleton state -/

/-- The state of the config-file source, as observed by
`load_config_on_startup`: the file may be absent, unreadable (an I/O error
other than not-found), readable but not valid TOML, or readable and
parsed into a document tree. -/
inductive DocSource : Type where
  | absent
  | unreadable
  | malformed (e : String)
  | doc (v : TomlV)

/-- The load pipeline of `load_config_on_startup`:
`std::fs::read_to_string(..).and_then(|c| toml::from_str(c).map_err(stash))
.unwrap_or_default()`, returning the loaded config together with the
stashed TOML error (`maybe_config_err`). An I/O failure (including a
missing file) short-circuits before the TOML error is stashed, so it
yields the default config with no error. -/
def load_config : DocSource → Config × Option String
  | .absent => (Config.default, none)
  | .unreadable => (Config.default, none)
  | .malformed e => (Config.default, some e)
  | .doc v =>
    match Config.deserialize v with
    | .ok c => (c, none)
    | .error e => (Config.default, some e)

/-- The two `OnceCell` statics `CONFIG_FILE` and `CONFIG`. -/
structure GlobalCells : Type where
  config_file : Option (List String)
  config : Option Config
deriving DecidableEq

/-- Both cells unset: the state at process start. -/
def GlobalCells.empty : GlobalCells :=
  ⟨none, none⟩

/-- Resolution of the effective config file path (paths are modelled as
component lists). With no override, the default path is
`config_dir ++ ["config.toml"]` and, when nothing exists at that path,
the code calls `std::fs::create_dir_all` on that very path; the second
component of the result records the directory path so created, `none`
when no directory is created. -/
def resolve_config_file (specified : Option (List String)) (config_dir : List String)
    (path_exists : List String → Bool) : List String × Option (List String) :=
  match specified with
  | some p => (p, none)
  | none =>
    let config_file_path := config_dir ++ ["config.toml"]
    if path_exists config_file_path then (config_file_path, none)
    else (config_file_path, some config_file_path)

/-- `load_config_on_startup`: resolve the path, run the loader, then
publish path and config through the two `OnceCell`s. `OnceCell::set` on an
already-set cell fails and the `.expect` turns that into a panic, modelled
as `Except.error` carrying the panic message; on success the new cell
state, the published config and the stashed load error are returned. -/
def load_config_on_startup (st : GlobalCells) (specified : Option (List String))
    (config_dir : List String) (path_exists : List String → Bool) (src : DocSource) :
    Except String (GlobalCells × Config × Option String) :=
  let resolved := (resolve_config_file specified config_dir path_exists).1
  let loaded := load_config src
  match st.config_file with
  | some _ => .error "Failed to initialize Config file"
  | none =>
    match st.config with
    | some _ => .error "Failed to initialize Config"
    | none => .ok (⟨some resolved, some loaded.1⟩, loaded.1, loaded.2)

/-- The accessor `config()`: `CONFIG.get().expect("Config must be
initialized")`; the panic on an unset cell is `Except.error`. -/
def config (st : GlobalCells) : Except String Config :=
  match st.config with
  | some c => .ok c
  | none => .error "Config must be initialized"

/-- The accessor `config_file()`: `CONFIG_FILE.get().expect("Config file
uninitialized")`. -/
def config_file (st : GlobalCells) : Except String (List String) :=
  match st.config_file with
  | some p => .ok p
  | none => .error "Config file uninitialized"

/-! ## Unknown-field predicates

`hasUnknown` holds of a document that contains, at the root table or in
any sub-table sitting at a struct position of the schema, a key that is
not a field name of that struct. Keys of map-valued fields
(`project-ignores`, `provider-ignores`, `debounce`) are arbitrary and
hence never unknown, but their values are `IgnoreConfig` tables and are
descended into. -/

/-- A table (at a struct position with field list `keys`) whose own keys
include one outside `keys`. -/
def flatUnknown (keys : List String) : TomlV → Bool
  | .table kvs => !(checkKeys kvs keys)
  | _ => false

/-- Descend into the sub-document at field `key`, when present. -/
def subUnknown (kvs : List (String × TomlV)) (key : String) (f : TomlV → Bool) : Bool :=
  match tlookup kvs key with
  | some v => f v
  | none => false

/-- Descend into every value of the map-valued field at `key`. -/
def mapValsUnknown (kvs : List (String × TomlV)) (key : String) (f : TomlV → Bool) : Bool :=
  match tlookup kvs key with
  | some (.table m) => m.any (fun kv => f kv.2)
  | _ => false

/-- Unknown field name somewhere in an `IgnoreConfig` document. -/
def IgnoreConfig.hasUnknown : TomlV → Bool :=
  flatUnknown IgnoreConfig.keys

/-- Unknown field name somewhere in a `SyntaxPluginConfig` document. -/
def SyntaxPluginConfig.hasUnknown : TomlV → Bool
  | .table kvs =>
    !(checkKeys kvs SyntaxPluginConfig.keys) ||
      subUnknown kvs "render-strategy" (flatUnknown RenderStrategy.keys)
  | _ => false

/-- Unknown field name somewhere in a `PluginConfig` document. -/
def PluginConfig.hasUnknown : TomlV → Bool
  | .table kvs =>
    !(checkKeys kvs PluginConfig.keys) ||
      subUnknown kvs "colorizer" (flatUnknown ColorizerPluginConfig.keys) ||
      subUnknown kvs "cursorword" (flatUnknown CursorWordConfig.keys) ||
      subUnknown kvs "ctags" (flatUnknown CtagsPluginConfig.keys) ||
      subUnknown kvs "git" (flatUnknown GitPluginConfig.keys) ||
      subUnknown kvs "linter" (flatUnknown LinterPluginConfig.keys) ||
      subUnknown kvs "markdown" (flatUnknown MarkdownPluginConfig.keys) ||
      subUnknown kvs "syntax" SyntaxPluginConfig.hasUnknown
  | _ => false

/-- Unknown field name somewhere in a `ProviderConfig` document. -/
def ProviderConfig.hasUnknown : TomlV → Bool
  | .table kvs =>
    !(checkKeys kvs ProviderConfig.keys) ||
      mapValsUnknown kvs "project-ignores" IgnoreConfig.hasUnknown ||
      mapValsUnknown kvs "provider-ignores" IgnoreConfig.hasUnknown
  | _ => false

/-- Unknown field name somewhere in a `Config` document, at the root
table or in any sub-table at a schema struct position. -/
def Config.hasUnknown : TomlV → Bool
  | .table kvs =>
    !(checkKeys kvs Config.keys) ||
      subUnknown kvs "log" (flatUnknown LogConfig.keys) ||
      subUnknown kvs "matcher" (flatUnknown MatcherConfig.keys) ||
      subUnknown kvs "plugin" PluginConfig.hasUnknown ||
      subUnknown kvs "provider" ProviderConfig.hasUnknown ||
      subUnknown kvs "global-ignore" IgnoreConfig.hasUnknown
  | _ => false

/-! ## Helper lemmas -/

/-- Decidable equality of load results, for evaluating the model on
concrete inputs. -/
instance instDecEqExceptString {α : Type} [DecidableEq α] :
    DecidableEq (Except String α) := fun a b =>
  match a, b with
  | .ok x, .ok y =>
    if h : x = y then .isTrue (by rw [h]) else .isFalse (by simp [h])
  | .error x, .error y =>
    if h : x = y then .isTrue (by rw [h]) else .isFalse (by simp [h])
  | .ok _, .error _ => .isFalse (by simp)
  | .error _, .ok _ => .isFalse (by simp)

/-- A failing `Except` value is an `error`. -/
theorem isOk_false_iff {α : Type} (x : Except String α) :
    isOk x = false ↔ ∃ e, x = .error e := by
  cases x <;> simp [isOk]

/-- A successful `Except` value is an `ok`. -/
theorem isOk_true_iff {α : Type} (x : Except String α) :
    isOk x = true ↔ ∃ a, x = .ok a := by
  cases x <;> simp [isOk]

/-- Round trip of string lists through `mapME parseStr`. -/
theorem mapME_parseStr (l : List String) :
    mapME parseStr (l.map TomlV.str) = .ok l := by
  induction l with
  | nil => rfl
  | cons a rest ih => simp [mapME, parseStr, ih]

/-- Generic round trip of map-valued fields: if the value parser inverts
the value serializer, `mapME (parseKV p)` inverts the entry-wise map. -/
theorem mapME_parseKV_rt {α : Type} (p : TomlV → Except String α) (f : α → TomlV)
    (hpf : ∀ a, p (f a) = .ok a) (l : List (String × α)) :
    mapME (parseKV p) (l.map (fun kv => (kv.1, f kv.2))) = .ok l := by
  induction l with
  | nil => rfl
  | cons a rest ih => simp [mapME, parseKV, hpf, ih]

/-- `parseNat` inverts `natV`. -/
theorem parseNat_natV (n : Nat) : parseNat (natV n) = .ok n := rfl

/-- If one element fails to parse, the whole `mapME` fails. -/
theorem mapME_fail {α β : Type} (f : α → Except String β) (l : List α) (a : α)
    (ha : a ∈ l) (hf : isOk (f a) = false) : isOk (mapME f l) = false := by
  induction l with
  | nil => cases ha
  | cons b rest ih =>
    rcases List.mem_cons.mp ha with h | h
    · subst h
      rcases (isOk_false_iff (f a)).mp hf with ⟨e, he⟩
      simp [mapME, he, isOk]
    · have hrest := ih h
      rcases (isOk_false_iff (mapME f rest)).mp hrest with ⟨e, he⟩
      cases hb : f b <;> simp [mapME, hb, he, isOk]

/-- Round trip of `IgnoreConfig` through serialize/deserialize. -/
theorem IgnoreConfig_rt (x : IgnoreConfig) :
    IgnoreConfig.deserialize x.serialize = .ok x := by
  obtain ⟨a, b, c, d⟩ := x
  simp [IgnoreConfig.serialize, IgnoreConfig.deserialize, IgnoreConfig.keys,
    checkKeys, keyAllowed, tlookup, parseFieldD, parseBool, parseStrList,
    strListV, mapME_parseStr]

/-- Round trip of `LogConfig` through serialize/deserialize. -/
theorem LogConfig_rt (x : LogConfig) :
    LogConfig.deserialize x.serialize = .ok x := by
  obtain ⟨a, b, c⟩ := x
  cases a <;>
    simp [LogConfig.serialize, LogConfig.deserialize, LogConfig.keys, optField,
      checkKeys, keyAllowed, tlookup, parseFieldD, parseFieldOpt, parseStr]

/-- Round trip of `MatcherConfig` through serialize/deserialize. -/
theorem MatcherConfig_rt (x : MatcherConfig) :
    MatcherConfig.deserialize x.serialize = .ok x := by
  obtain ⟨a⟩ := x
  simp [MatcherConfig.serialize, MatcherConfig.deserialize, MatcherConfig.keys,
    checkKeys, keyAllowed, tlookup, parseFieldD, parseStr]

/-- Round trip of `CursorWordConfig` through serialize/deserialize. -/
theorem CursorWordConfig_rt (x : CursorWordConfig) :
    CursorWordConfig.deserialize x.serialize = .ok x := by
  obtain ⟨a, b, c⟩ := x
  simp [CursorWordConfig.serialize, CursorWordConfig.deserialize,
    CursorWordConfig.keys, checkKeys, keyAllowed, tlookup, parseFieldD,
    parseBool, parseStr]

/-- Round trip of `MarkdownPluginConfig` through serialize/deserialize. -/
theorem MarkdownPluginConfig_rt (x : MarkdownPluginConfig) :
    MarkdownPluginConfig.deserialize x.serialize = .ok x := by
  obtain ⟨a⟩ := x
  simp [MarkdownPluginConfig.serialize, MarkdownPluginConfig.deserialize,
    MarkdownPluginConfig.keys, checkKeys, keyAllowed, tlookup, parseFieldD,
    parseBool]

/-- Round trip of `CtagsPluginConfig` through serialize/deserialize. -/
theorem CtagsPluginConfig_rt (x : CtagsPluginConfig) :
    CtagsPluginConfig.deserialize x.serialize = .ok x := by
  obtain ⟨a, b⟩ := x
  simp [CtagsPluginConfig.serialize, CtagsPluginConfig.deserialize,
    CtagsPluginConfig.keys, checkKeys, keyAllowed, tlookup, parseFieldD,
    parseBool, parseNat_natV]

/-- Round trip of `GitPluginConfig` through serialize/deserialize. -/
theorem GitPluginConfig_rt (x : GitPluginConfig) :
    GitPluginConfig.deserialize x.serialize = .ok x := by
  obtain ⟨a, b⟩ := x
  cases b <;>
    simp [GitPluginConfig.serialize, GitPluginConfig.deserialize,
      GitPluginConfig.keys, optField, checkKeys, keyAllowed, tlookup,
      parseFieldD, parseFieldOpt, parseBool, parseStr]

/-- Round trip of `ColorizerPluginConfig` through serialize/deserialize. -/
theorem ColorizerPluginConfig_rt (x : ColorizerPluginConfig) :
    ColorizerPluginConfig.deserialize x.serialize = .ok x := by
  obtain ⟨a⟩ := x
  simp [ColorizerPluginConfig.serialize, ColorizerPluginConfig.deserialize,
    ColorizerPluginConfig.keys, checkKeys, keyAllowed, tlookup, parseFieldD,
    parseBool]

/-- Round trip of `LinterPluginConfig` through serialize/deserialize. -/
theorem LinterPluginConfig_rt (x : LinterPluginConfig) :
    LinterPluginConfig.deserialize x.serialize = .ok x := by
  obtain ⟨a⟩ := x
  simp [LinterPluginConfig.serialize, LinterPluginConfig.deserialize,
    LinterPluginConfig.keys, checkKeys, keyAllowed, tlookup, parseFieldD,
    parseBool]

/-- Round trip of `RenderStrategy` through serialize/deserialize. -/
theorem RenderStrategy_rt (x : RenderStrategy) :
    RenderStrategy.deserialize x.serialize = .ok x := by
  cases x <;>
    simp [RenderStrategy.serialize, RenderStrategy.deserialize,
      RenderStrategy.keys, checkKeys, keyAllowed, tlookup, parseNat_natV]

/-- Round trip of `SyntaxPluginConfig` through serialize/deserialize. -/
theorem SyntaxPluginConfig_rt (x : SyntaxPluginConfig) :
    SyntaxPluginConfig.deserialize x.serialize = .ok x := by
  obtain ⟨a⟩ := x
  simp [SyntaxPluginConfig.serialize, SyntaxPluginConfig.deserialize,
    SyntaxPluginConfig.keys, checkKeys, keyAllowed, tlookup, parseFieldD,
    RenderStrategy_rt]

/-- Round trip of `PluginConfig` through serialize/deserialize. -/
theorem PluginConfig_rt (x : PluginConfig) :
    PluginConfig.deserialize x.serialize = .ok x := by
  obtain ⟨a, b, c, d, e, f, g⟩ := x
  simp [PluginConfig.serialize, PluginConfig.deserialize, PluginConfig.keys,
    checkKeys, keyAllowed, tlookup, parseFieldD, ColorizerPluginConfig_rt,
    CursorWordConfig_rt, CtagsPluginConfig_rt, GitPluginConfig_rt,
    LinterPluginConfig_rt, MarkdownPluginConfig_rt, SyntaxPluginConfig_rt]

/-- Round trip of `HighlightEngine` through serialize/deserialize. -/
theorem HighlightEngine_rt (x : HighlightEngine) :
    HighlightEngine.deserialize x.serialize = .ok x := by
  cases x <;> rfl

/-- Round trip of `ProviderConfig` through serialize/deserialize. -/
theorem ProviderConfig_rt (x : ProviderConfig) :
    ProviderConfig.deserialize x.serialize = .ok x := by
  obtain ⟨a, b, c, d, e, f, g⟩ := x
  cases b <;> cases d <;>
    simp [ProviderConfig.serialize, ProviderConfig.deserialize,
      ProviderConfig.keys, optField, serializeMap, checkKeys, keyAllowed,
      tlookup, parseFieldD, parseFieldOpt, parseMapField, parseBool, parseStr,
      parseNat_natV, HighlightEngine_rt,
      mapME_parseKV_rt IgnoreConfig.deserialize IgnoreConfig.serialize IgnoreConfig_rt,
      mapME_parseKV_rt parseNat natV parseNat_natV]

/-- Round trip of the root `Config` through serialize/deserialize. -/
theorem Config_rt (x : Config) :
    Config.deserialize x.serialize = .ok x := by
  obtain ⟨a, b, c, d, e⟩ := x
  simp [Config.serialize, Config.deserialize, Config.keys, checkKeys,
    keyAllowed, tlookup, parseFieldD, LogConfig_rt, MatcherConfig_rt,
    PluginConfig_rt, ProviderConfig_rt, IgnoreConfig_rt]

/-- A field that is present but fails to parse makes `parseFieldD` fail. -/
theorem parseFieldD_fail {α : Type} (kvs : List (String × TomlV)) (key : String)
    (p : TomlV → Except String α) (d : α) (v : TomlV)
    (hl : tlookup kvs key = some v) (hf : isOk (p v) = false) :
    isOk (parseFieldD kvs key p d) = false := by
  simpa [parseFieldD, hl] using hf

/-- A failing value parse makes the map-entry parse fail. -/
theorem parseKV_fail {α : Type} (p : TomlV → Except String α) (kv : String × TomlV)
    (h : isOk (p kv.2) = false) : isOk (parseKV p kv) = false := by
  rcases (isOk_false_iff _).mp h with ⟨e, he⟩
  simp [parseKV, he, isOk]

/-- A failing value somewhere in a map-valued field makes the whole field
parse fail. -/
theorem parseMapField_fail {α : Type} (kvs : List (String × TomlV)) (key : String)
    (p : TomlV → Except String α) (m : List (String × TomlV)) (kv : String × TomlV)
    (hl : tlookup kvs key = some (.table m)) (hm : kv ∈ m)
    (hf : isOk (p kv.2) = false) : isOk (parseMapField kvs key p) = false := by
  simp only [parseMapField, hl]
  exact mapME_fail _ m kv hm (parseKV_fail p kv hf)

/-- An unknown key in an `IgnoreConfig` table makes its deserialization fail. -/
theorem IgnoreConfig_unknown_fail (v : TomlV)
    (h : flatUnknown IgnoreConfig.keys v = true) :
    isOk (IgnoreConfig.deserialize v) = false := by
  cases v <;> simp_all [flatUnknown, IgnoreConfig.deserialize, isOk]

/-- An unknown key in a `LogConfig` table makes its deserialization fail. -/
theorem LogConfig_unknown_fail (v : TomlV)
    (h : flatUnknown LogConfig.keys v = true) :
    isOk (LogConfig.deserialize v) = false := by
  cases v <;> simp_all [flatUnknown, LogConfig.deserialize, isOk]

/-- An unknown key in a `MatcherConfig` table makes its deserialization fail. -/
theorem MatcherConfig_unknown_fail (v : TomlV)
    (h : flatUnknown MatcherConfig.keys v = true) :
    isOk (MatcherConfig.deserialize v) = false := by
  cases v <;> simp_all [flatUnknown, MatcherConfig.deserialize, isOk]

/-- An unknown key in a `CursorWordConfig` table makes its deserialization fail. -/
theorem CursorWordConfig_unknown_fail (v : TomlV)
    (h : flatUnknown CursorWordConfig.keys v = true) :
    isOk (CursorWordConfig.deserialize v) = false := by
  cases v <;> simp_all [flatUnknown, CursorWordConfig.deserialize, isOk]

/-- An unknown key in a `MarkdownPluginConfig` table makes its deserialization fail. -/
theorem MarkdownPluginConfig_unknown_fail (v : TomlV)
    (h : flatUnknown MarkdownPluginConfig.keys v = true) :
    isOk (MarkdownPluginConfig.deserialize v) = false := by
  cases v <;> simp_all [flatUnknown, MarkdownPluginConfig.deserialize, isOk]

/-- An unknown key in a `CtagsPluginConfig` table makes its deserialization fail. -/
theorem CtagsPluginConfig_unknown_fail (v : TomlV)
    (h : flatUnknown CtagsPluginConfig.keys v = true) :
    isOk (CtagsPluginConfig.deserialize v) = false := by
  cases v <;> simp_all [flatUnknown, CtagsPluginConfig.deserialize, isOk]

/-- An unknown key in a `GitPluginConfig` table makes its deserialization fail. -/
theorem GitPluginConfig_unknown_fail (v : TomlV)
    (h : flatUnknown GitPluginConfig.keys v = true) :
    isOk (GitPluginConfig.deserialize v) = false := by
  cases v <;> simp_all [flatUnknown, GitPluginConfig.deserialize, isOk]

/-- An unknown key in a `ColorizerPluginConfig` table makes its deserialization fail. -/
theorem ColorizerPluginConfig_unknown_fail (v : TomlV)
    (h : flatUnknown ColorizerPluginConfig.keys v = true) :
    isOk (ColorizerPluginConfig.deserialize v) = false := by
  cases v <;> simp_all [flatUnknown, ColorizerPluginConfig.deserialize, isOk]

/-- An unknown key in a `LinterPluginConfig` table makes its deserialization fail. -/
theorem LinterPluginConfig_unknown_fail (v : TomlV)
    (h : flatUnknown LinterPluginConfig.keys v = true) :
    isOk (LinterPluginConfig.deserialize v) = false := by
  cases v <;> simp_all [flatUnknown, LinterPluginConfig.deserialize, isOk]

/-- An unknown key in a `RenderStrategy` table makes its deserialization fail. -/
theorem RenderStrategy_unknown_fail (v : TomlV)
    (h : flatUnknown RenderStrategy.keys v = true) :
    isOk (RenderStrategy.deserialize v) = false := by
  cases v <;> simp_all [flatUnknown, RenderStrategy.deserialize, isOk]

/-- Extract the sub-document from a true `subUnknown`. -/
theorem subUnknown_true {kvs : List (String × TomlV)} {key : String} {f : TomlV → Bool}
    (h : subUnknown kvs key f = true) :
    ∃ v, tlookup kvs key = some v ∧ f v = true := by
  unfold subUnknown at h
  rcases hl : tlookup kvs key with _ | v
  · rw [hl] at h; cases h
  · rw [hl] at h; exact ⟨v, rfl, h⟩

/-- Extract the failing map entry from a true `mapValsUnknown`. -/
theorem mapValsUnknown_true {kvs : List (String × TomlV)} {key : String}
    {f : TomlV → Bool} (h : mapValsUnknown kvs key f = true) :
    ∃ m kv, tlookup kvs key = some (.table m) ∧ kv ∈ m ∧ f kv.2 = true := by
  unfold mapValsUnknown at h
  rcases hl : tlookup kvs key with _ | v
  · rw [hl] at h; cases h
  · rw [hl] at h
    cases v with
    | table m =>
      rcases List.any_eq_true.mp h with ⟨kv, hkv, hf⟩
      exact ⟨m, kv, rfl, hkv, hf⟩
    | str s => cases h
    | int n => cases h
    | bool b => cases h
    | arr xs => cases h

/-- An unknown key anywhere in a `SyntaxPluginConfig` document makes its
deserialization fail. -/
theorem SyntaxPluginConfig_unknown_fail (v : TomlV)
    (h : SyntaxPluginConfig.hasUnknown v = true) :
    isOk (SyntaxPluginConfig.deserialize v) = false := by
  cases v with
  | table kvs =>
    simp only [SyntaxPluginConfig.hasUnknown, Bool.or_eq_true, Bool.not_eq_true'] at h
    rcases h with h | h
    · simp [SyntaxPluginConfig.deserialize, h, isOk]
    · obtain ⟨rv, hsub, hU⟩ := subUnknown_true h
      have hfd := parseFieldD_fail kvs "render-strategy" RenderStrategy.deserialize
        RenderStrategy.default rv hsub (RenderStrategy_unknown_fail rv hU)
      cases hck : checkKeys kvs SyntaxPluginConfig.keys
      · simp [SyntaxPluginConfig.deserialize, hck, isOk]
      · simp only [SyntaxPluginConfig.deserialize, hck, if_true]
        split <;> simp_all [isOk]
  | str s => simp [SyntaxPluginConfig.hasUnknown] at h
  | int n => simp [SyntaxPluginConfig.hasUnknown] at h
  | bool b => simp [SyntaxPluginConfig.hasUnknown] at h
  | arr xs => simp [SyntaxPluginConfig.hasUnknown] at h

/-- An unknown key anywhere in a `PluginConfig` document makes its
deserialization fail. -/
theorem PluginConfig_unknown_fail (v : TomlV)
    (h : PluginConfig.hasUnknown v = true) :
    isOk (PluginConfig.deserialize v) = false := by
  cases v with
  | table kvs =>
    simp only [PluginConfig.hasUnknown, Bool.or_eq_true, Bool.not_eq_true'] at h
    rcases h with ((((((h | h) | h) | h) | h) | h) | h) | h
    · simp [PluginConfig.deserialize, h, isOk]
    · obtain ⟨rv, hsub, hU⟩ := subUnknown_true h
      have hfd := parseFieldD_fail kvs "colorizer" ColorizerPluginConfig.deserialize
        ColorizerPluginConfig.default rv hsub (ColorizerPluginConfig_unknown_fail rv hU)
      cases hck : checkKeys kvs PluginConfig.keys
      · simp [PluginConfig.deserialize, hck, isOk]
      · simp only [PluginConfig.deserialize, hck, if_true]
        split <;> simp_all [isOk]
    · obtain ⟨rv, hsub, hU⟩ := subUnknown_true h
      have hfd := parseFieldD_fail kvs "cursorword" CursorWordConfig.deserialize
        CursorWordConfig.default rv hsub (CursorWordConfig_unknown_fail rv hU)
      cases hck : checkKeys kvs PluginConfig.keys
      · simp [PluginConfig.deserialize, hck, isOk]
      · simp only [PluginConfig.deserialize, hck, if_true]
        split <;> simp_all [isOk]
    · obtain ⟨rv, hsub, hU⟩ := subUnknown_true h
      have hfd := parseFieldD_fail kvs "ctags" CtagsPluginConfig.deserialize
        CtagsPluginConfig.default rv hsub (CtagsPluginConfig_unknown_fail rv hU)
      cases hck : checkKeys kvs PluginConfig.keys
      · simp [PluginConfig.deserialize, hck, isOk]
      · simp only [PluginConfig.deserialize, hck, if_true]
        split <;> simp_all [isOk]
    · obtain ⟨rv, hsub, hU⟩ := subUnknown_true h
      have hfd := parseFieldD_fail kvs "git" GitPluginConfig.deserialize
        GitPluginConfig.default rv hsub (GitPluginConfig_unknown_fail rv hU)
      cases hck : checkKeys kvs PluginConfig.keys
      · simp [PluginConfig.deserialize, hck, isOk]
      · simp only [PluginConfig.deserialize, hck, if_true]
        split <;> simp_all [isOk]
    · obtain ⟨rv, hsub, hU⟩ := subUnknown_true h
      have hfd := parseFieldD_fail kvs "linter" LinterPluginConfig.deserialize
        LinterPluginConfig.default rv hsub (LinterPluginConfig_unknown_fail rv hU)
      cases hck : checkKeys kvs PluginConfig.keys
      · simp [PluginConfig.deserialize, hck, isOk]
      · simp only [PluginConfig.deserialize, hck, if_true]
        split <;> simp_all [isOk]
    · obtain ⟨rv, hsub, hU⟩ := subUnknown_true h
      have hfd := parseFieldD_fail kvs "markdown" MarkdownPluginConfig.deserialize
        MarkdownPluginConfig.default rv hsub (MarkdownPluginConfig_unknown_fail rv hU)
      cases hck : checkKeys kvs PluginConfig.keys
      · simp [PluginConfig.deserialize, hck, isOk]
      · simp only [PluginConfig.deserialize, hck, if_true]
        split <;> simp_all [isOk]
    · obtain ⟨rv, hsub, hU⟩ := subUnknown_true h
      have hfd := parseFieldD_fail kvs "syntax" SyntaxPluginConfig.deserialize
        SyntaxPluginConfig.default rv hsub (SyntaxPluginConfig_unknown_fail rv hU)
      cases hck : checkKeys kvs PluginConfig.keys
      · simp [PluginConfig.deserialize, hck, isOk]
      · simp only [PluginConfig.deserialize, hck, if_true]
        split <;> simp_all [isOk]
  | str s => simp [PluginConfig.hasUnknown] at h
  | int n => simp [PluginConfig.hasUnknown] at h
  | bool b => simp [PluginConfig.hasUnknown] at h
  | arr xs => simp [PluginConfig.hasUnknown] at h

/-- An unknown key anywhere in a `ProviderConfig` document makes its
deserialization fail. -/
theorem ProviderConfig_unknown_fail (v : TomlV)
    (h : ProviderConfig.hasUnknown v = true) :
    isOk (ProviderConfig.deserialize v) = false := by
  cases v with
  | table kvs =>
    simp only [ProviderConfig.hasUnknown, Bool.or_eq_true, Bool.not_eq_true'] at h
    rcases h with (h | h) | h
    · simp [ProviderConfig.deserialize, h, isOk]
    · obtain ⟨m, kv, hl, hm, hU⟩ := mapValsUnknown_true h
      have hfd := parseMapField_fail kvs "project-ignores" IgnoreConfig.deserialize
        m kv hl hm (IgnoreConfig_unknown_fail kv.2 hU)
      cases hck : checkKeys kvs ProviderConfig.keys
      · simp [ProviderConfig.deserialize, hck, isOk]
      · simp only [ProviderConfig.deserialize, hck, if_true]
        split <;> simp_all [isOk]
    · obtain ⟨m, kv, hl, hm, hU⟩ := mapValsUnknown_true h
      have hfd := parseMapField_fail kvs "provider-ignores" IgnoreConfig.deserialize
        m kv hl hm (IgnoreConfig_unknown_fail kv.2 hU)
      cases hck : checkKeys kvs ProviderConfig.keys
      · simp [ProviderConfig.deserialize, hck, isOk]
      · simp only [ProviderConfig.deserialize, hck, if_true]
        split <;> simp_all [isOk]
  | str s => simp [ProviderConfig.hasUnknown] at h
  | int n => simp [ProviderConfig.hasUnknown] at h
  | bool b => simp [ProviderConfig.hasUnknown] at h
  | arr xs => simp [ProviderConfig.hasUnknown] at h

/-- An unknown key anywhere in a `Config` document makes its
deserialization fail. -/
theorem Config_unknown_fail (v : TomlV)
    (h : Config.hasUnknown v = true) :
    isOk (Config.deserialize v) = false := by
  cases v with
  | table kvs =>
    simp only [Config.hasUnknown, Bool.or_eq_true, Bool.not_eq_true'] at h
    rcases h with ((((h | h) | h) | h) | h) | h
    · simp [Config.deserialize, h, isOk]
    · obtain ⟨rv, hsub, hU⟩ := subUnknown_true h
      have hfd := parseFieldD_fail kvs "log" LogConfig.deserialize
        LogConfig.default rv hsub (LogConfig_unknown_fail rv hU)
      cases hck : checkKeys kvs Config.keys
      · simp [Config.deserialize, hck, isOk]
      · simp only [Config.deserialize, hck, if_true]
        split <;> simp_all [isOk]
    · obtain ⟨rv, hsub, hU⟩ := subUnknown_true h
      have hfd := parseFieldD_fail kvs "matcher" MatcherConfig.deserialize
        MatcherConfig.default rv hsub (MatcherConfig_unknown_fail rv hU)
      cases hck : checkKeys kvs Config.keys
      · simp [Config.deserialize, hck, isOk]
      · simp only [Config.deserialize, hck, if_true]
        split <;> simp_all [isOk]
    · obtain ⟨rv, hsub, hU⟩ := subUnknown_true h
      have hfd := parseFieldD_fail kvs "plugin" PluginConfig.deserialize
        PluginConfig.default rv hsub (PluginConfig_unknown_fail rv hU)
      cases hck : checkKeys kvs Config.keys
      · simp [Config.deserialize, hck, isOk]
      · simp only [Config.deserialize, hck, if_true]
        split <;> simp_all [isOk]
    · obtain ⟨rv, hsub, hU⟩ := subUnknown_true h
      have hfd := parseFieldD_fail kvs "provider" ProviderConfig.deserialize
        ProviderConfig.default rv hsub (ProviderConfig_unknown_fail rv hU)
      cases hck : checkKeys kvs Config.keys
      · simp [Config.deserialize, hck, isOk]
      · simp only [Config.deserialize, hck, if_true]
        split <;> simp_all [isOk]
    · obtain ⟨rv, hsub, hU⟩ := subUnknown_true h
      have hfd := parseFieldD_fail kvs "global-ignore" IgnoreConfig.deserialize
        IgnoreConfig.default rv hsub (IgnoreConfig_unknown_fail rv hU)
      cases hck : checkKeys kvs Config.keys
      · simp [Config.deserialize, hck, isOk]
      · simp only [Config.deserialize, hck, if_true]
        split <;> simp_all [isOk]
  | str s => simp [Config.hasUnknown] at h
  | int n => simp [Config.hasUnknown] at h
  | bool b => simp [Config.hasUnknown] at h
  | arr xs => simp [Config.hasUnknown] at h

/-- If every element maps to `none`, `filterMap` is empty. -/
theorem filterMap_all_none {α β : Type} (f : α → Option β) (l : List α)
    (h : ∀ s ∈ l, f s = none) : l.filterMap f = [] := by
  induction l with
  | nil => rfl
  | cons a rest ih =>
    simp [List.filterMap_cons, h a (by simp),
      ih (fun s hs => h s (by simp [hs]))]

/-! ## Example values used by the witnesses -/

/-- Example provider-specific ignore entry (spec value `A`). -/
def igA : IgnoreConfig := ⟨true, false, [], []⟩

/-- Example project-specific ignore entry (spec value `B`). -/
def igB : IgnoreConfig := ⟨false, true, [], []⟩

/-- Example global ignore (spec value `G`). -/
def igG : IgnoreConfig := ⟨false, false, ["g"], []⟩

/-- Config of the spec scenario `provider_ignores = {p: A}`,
`project_ignores = {/x: B}`, `global_ignore = G`. -/
def cfgC1 : Config :=
  { Config.default with
    provider := { ProviderConfig.default with
      provider_ignores := [("p", igA)], project_ignores := [("/x", igB)] },
    global_ignore := igG }

/-- Config of the spec scenario `debounce = {"*": 200, "files": 100}`. -/
def cfgC2 : Config :=
  { Config.default with
    provider := { ProviderConfig.default with
      debounce := [("*", 200), ("files", 100)] } }

/-- Config with an explicit zero debounce for `files` and a non-zero
wildcard entry. -/
def cfgC10 : Config :=
  { Config.default with
    provider := { ProviderConfig.default with
      debounce := [("files", 0), ("*", 100)] } }

/-! ## Claims -/

/-- C1: for every `Config`, provider id `p` and project dir `d`,
`Config::ignore_config` returns exactly `provider_ignores[p]` when that
key is present; otherwise exactly `project_ignores[d]` when present;
otherwise `global_ignore` — one source whole, never a field-wise mix. -/
theorem claim_C1_ignore_resolution (c : Config) (p d : String) :
    (∀ a, tlookup c.provider.provider_ignores p = some a →
      c.ignore_config p d = a) ∧
    (tlookup c.provider.provider_ignores p = none →
      ∀ b, tlookup c.provider.project_ignores d = some b →
        c.ignore_config p d = b) ∧
    (tlookup c.provider.provider_ignores p = none →
      tlookup c.provider.project_ignores d = none →
      c.ignore_config p d = c.global_ignore) := by
  refine ⟨fun a ha => ?_, fun hn b hb => ?_, fun hn hd => ?_⟩ <;>
    simp [Config.ignore_config, Option.orElse, *]

/-- Witness for C1, the spec's concrete scenario: `A` for `("p","/x")`,
`B` for `("q","/x")`, `G` for `("q","/y")`. -/
theorem claim_C1_witness :
    cfgC1.ignore_config "p" "/x" = igA ∧
    cfgC1.ignore_config "q" "/x" = igB ∧
    cfgC1.ignore_config "q" "/y" = igG :=
  ⟨(claim_C1_ignore_resolution cfgC1 "p" "/x").1 igA (by decide),
   (claim_C1_ignore_resolution cfgC1 "q" "/x").2.1 (by decide) igB (by decide),
   (claim_C1_ignore_resolution cfgC1 "q" "/y").2.2 (by decide) (by decide)⟩

/-- C2: `Config::provider_debounce` returns `debounce[p]` when present,
else `debounce["*"]` when present, else the constant 200; with an empty
debounce map the result is 200 for every provider id. -/
theorem claim_C2_debounce_resolution (c : Config) (p : String) :
    (∀ v, tlookup c.provider.debounce p = some v → c.provider_debounce p = v) ∧
    (tlookup c.provider.debounce p = none →
      ∀ v, tlookup c.provider.debounce "*" = some v → c.provider_debounce p = v) ∧
    (tlookup c.provider.debounce p = none →
      tlookup c.provider.debounce "*" = none → c.provider_debounce p = 200) ∧
    (c.provider.debounce = [] → c.provider_debounce p = 200) := by
  refine ⟨fun v hv => ?_, fun hn v hv => ?_, fun hn hw => ?_, fun he => ?_⟩ <;>
    simp [Config.provider_debounce, Option.orElse, tlookup, *]

/-- Witness for C2, the spec's concrete scenario: with
`debounce = {"*": 200, "files": 100}` the resolution gives 100 for
`files` and 200 for `grep`; with the default (empty) map it gives 200. -/
theorem claim_C2_witness :
    cfgC2.provider_debounce "files" = 100 ∧
    cfgC2.provider_debounce "grep" = 200 ∧
    Config.default.provider_debounce "anything" = 200 :=
  ⟨(claim_C2_debounce_resolution cfgC2 "files").1 100 (by decide),
   (claim_C2_debounce_resolution cfgC2 "grep").2.1 (by decide) 200 (by decide),
   (claim_C2_debounce_resolution Config.default "anything").2.2.2 rfl⟩

/-- C10: an explicitly configured debounce of 0 for provider `p` is
honored as a present value: the resolution returns 0 and does not fall
through to the wildcard entry or the 200 ms constant. -/
theorem claim_C10_zero_debounce (c : Config) (p : String)
    (h : tlookup c.provider.debounce p = some 0) :
    c.provider_debounce p = 0 := by
  simp [Config.provider_debounce, Option.orElse, h]

/-- Witness for C10: `debounce = {"files": 0, "*": 100}` resolves
`files` to 0, not to 100 or 200. -/
theorem claim_C10_witness : cfgC10.provider_debounce "files" = 0 :=
  claim_C10_zero_debounce cfgC10 "files" (by decide)

/-- C9: `rank_criteria` returns, in order, the parsed criteria of exactly
the comma-separated tokens that parse, silently dropping failing tokens;
an all-invalid tiebreak string yields the empty sequence, not the
default sequence. -/
theorem claim_C9_rank_criteria (m : MatcherConfig) :
    m.rank_criteria =
      (splitComma m.tiebreak).filterMap (fun s => parse_criteria (trimChars s)) ∧
    ((∀ s ∈ splitComma m.tiebreak, parse_criteria (trimChars s) = none) →
      m.rank_criteria = []) :=
  ⟨rfl, fun h => filterMap_all_none _ _ h⟩

/-- Witness for C9: the all-invalid tiebreak string `"foo,bar"` yields
the empty criteria sequence. -/
theorem claim_C9_witness : (MatcherConfig.mk "foo,bar").rank_criteria = [] :=
  (claim_C9_rank_criteria ⟨"foo,bar"⟩).2 (by decide)

/-- Counterexample to C3 as stated: for an existing but unreadable
document (I/O failure), the loader does not return a non-`none` error —
the stashed error is only ever a TOML error, and an I/O failure
short-circuits before any TOML error is stashed. -/
theorem claim_C3_counterexample :
    ¬ ((load_config DocSource.unreadable).2.isSome = true) := by
  decide

/-- C3 (amended): the loader never aborts and classifies its input as:
no document — defaults, no error; unreadable document (I/O failure) —
defaults, no error; malformed or schema-invalid document — defaults plus
the encountered error. -/
theorem claim_C3_load_taxonomy (v : TomlV) (e : String) :
    load_config DocSource.absent = (Config.default, none) ∧
    load_config DocSource.unreadable = (Config.default, none) ∧
    load_config (DocSource.malformed e) = (Config.default, some e) ∧
    (∀ err, Config.deserialize v = .error err →
      load_config (DocSource.doc v) = (Config.default, some err)) ∧
    (∀ c, Config.deserialize v = .ok c →
      load_config (DocSource.doc v) = (c, none)) := by
  refine ⟨rfl, rfl, rfl, fun err herr => ?_, fun c hc => ?_⟩ <;>
    simp [load_config, *]

/-- Witness for C3: an absent file gives defaults and no error, a
document with an unknown root key gives defaults plus an error, an empty
document gives the all-defaults config and no error. -/
theorem claim_C3_witness :
    load_config DocSource.absent = (Config.default, none) ∧
    load_config (DocSource.doc (.table [("unknown", .bool true)])) =
      (Config.default, some "unknown field") ∧
    load_config (DocSource.doc (.table [])) = (Config.default, none) :=
  ⟨(claim_C3_load_taxonomy (.table []) "").1,
   (claim_C3_load_taxonomy (.table [("unknown", .bool true)]) "").2.2.2.1
     "unknown field" (by decide),
   (claim_C3_load_taxonomy (.table []) "").2.2.2.2 Config.default (by decide)⟩

/-- C4: a document containing a field name not in the schema, at the
root table or in any sub-table, fails deserialization as a whole: the
loader yields the all-defaults `Config` and a non-empty reported error,
keeping no partial result. -/
theorem claim_C4_unknown_field_rejected (v : TomlV)
    (h : Config.hasUnknown v = true) :
    isOk (Config.deserialize v) = false ∧
    (load_config (DocSource.doc v)).1 = Config.default ∧
    ((load_config (DocSource.doc v)).2).isSome = true := by
  have hf := Config_unknown_fail v h
  rcases (isOk_false_iff _).mp hf with ⟨e, he⟩
  exact ⟨hf, by simp [load_config, he], by simp [load_config, he]⟩

/-- Document with one unknown key nested two tables deep. -/
def docC4 : TomlV :=
  .table [("plugin", .table [("git", .table [("unknown-key", .bool true)])])]

/-- Witness for C4: a document with an unknown key nested inside
`[plugin.git]` is rejected and the loader reports defaults plus an error. -/
theorem claim_C4_witness :
    Config.hasUnknown docC4 = true ∧
    isOk (Config.deserialize docC4) = false ∧
    (load_config (DocSource.doc docC4)).1 = Config.default ∧
    ((load_config (DocSource.doc docC4)).2).isSome = true :=
  ⟨by decide, claim_C4_unknown_field_rejected docC4 (by decide)⟩

/-- C5: initialization is at-most-once and access-after-init only: after
a successful first call of `load_config_on_startup`, a second call is
fatal (it refuses to publish another config), and calling `config()` or
`config_file()` on the uninitialized state is fatal, not recoverable. -/
theorem claim_C5_init_once (spec1 spec2 : Option (List String))
    (d1 d2 : List String) (ex1 ex2 : List String → Bool) (s1 s2 : DocSource)
    (st1 : GlobalCells) (c : Config) (e : Option String)
    (h : load_config_on_startup GlobalCells.empty spec1 d1 ex1 s1 = .ok (st1, c, e)) :
    load_config_on_startup st1 spec2 d2 ex2 s2 =
      .error "Failed to initialize Config file" ∧
    config GlobalCells.empty = .error "Config must be initialized" ∧
    config_file GlobalCells.empty = .error "Config file uninitialized" := by
  refine ⟨?_, rfl, rfl⟩
  simp only [load_config_on_startup, GlobalCells.empty, Except.ok.injEq,
    Prod.mk.injEq] at h
  obtain ⟨h1, -, -⟩ := h
  rw [← h1]
  rfl

/-- Witness for C5: a concrete first call succeeds, after which the
second call panics and the pre-init accessors panic on the empty state. -/
theorem claim_C5_witness :
    load_config_on_startup
        (GlobalCells.mk (some ["cfg.toml"]) (some Config.default))
        (some ["cfg.toml"]) [] (fun _ => false) DocSource.absent =
      .error "Failed to initialize Config file" ∧
    config GlobalCells.empty = .error "Config must be initialized" ∧
    config_file GlobalCells.empty = .error "Config file uninitialized" :=
  claim_C5_init_once (some ["cfg.toml"]) (some ["cfg.toml"]) [] []
    (fun _ => false) (fun _ => false) DocSource.absent DocSource.absent
    (GlobalCells.mk (some ["cfg.toml"]) (some Config.default))
    Config.default none rfl

/-- The concrete document of C6: tiebreak set to the default string and
`[plugin.cursorword] enable = true`. -/
def docC6 : TomlV :=
  .table [("matcher", .table [("tiebreak", .str "score,-begin,-end,-length")]),
          ("plugin", .table [("cursorword", .table [("enable", .bool true)])])]

/-- The config C6 expects: all defaults except cursorword enabled. -/
def cfgC6 : Config :=
  { Config.default with
    plugin := { PluginConfig.default with
      cursorword := { CursorWordConfig.default with enable := true } } }

/-- C6: loading the document that sets only the tiebreak and
`plugin.cursorword.enable` produces a config with cursorword enabled,
every other plugin flag at its per-plugin default (git true, ctags
false), rank criteria `[Score, Begin(desc), End(desc), Length(desc)]`,
and all omitted fields at their field-level defaults. -/
theorem claim_C6_concrete_scenario :
    Config.deserialize docC6 = .ok cfgC6 ∧
    cfgC6.plugin.cursorword.enable = true ∧
    cfgC6.plugin.git.enable = true ∧
    cfgC6.plugin.ctags.enable = false ∧
    cfgC6.plugin.colorizer.enable = false ∧
    cfgC6.plugin.linter.enable = false ∧
    cfgC6.plugin.markdown.enable = false ∧
    cfgC6.plugin.stx = SyntaxPluginConfig.default ∧
    cfgC6.plugin.ctags = CtagsPluginConfig.default ∧
    cfgC6.plugin.git = GitPluginConfig.default ∧
    cfgC6.plugin.cursorword.ignore_comment_line =
      CursorWordConfig.default.ignore_comment_line ∧
    cfgC6.plugin.cursorword.ignore_files = CursorWordConfig.default.ignore_files ∧
    cfgC6.matcher.rank_criteria =
      [.score, .beginDesc, .endDesc, .lengthDesc] ∧
    cfgC6.log = LogConfig.default ∧
    cfgC6.provider = ProviderConfig.default ∧
    cfgC6.global_ignore = IgnoreConfig.default := by
  decide

/-- C7: any document that deserializes to a `Config` round-trips: the
serialization of that config deserializes to a structurally equal
config. -/
theorem claim_C7_roundtrip (v : TomlV) (c : Config)
    (_h : Config.deserialize v = .ok c) :
    Config.deserialize (Config.serialize c) = .ok c :=
  Config_rt c

/-- Witness for C7: the empty document deserializes to the default
config, and that config round-trips through serialization. -/
theorem claim_C7_witness :
    Config.deserialize (.table []) = .ok Config.default ∧
    Config.deserialize (Config.serialize Config.default) = .ok Config.default :=
  ⟨by decide, claim_C7_roundtrip (.table []) Config.default (by decide)⟩

/-- Example platform config directory. -/
def cfg_dir_example : List String := ["home", "user", ".config", "vimclap"]

/-- C8 evidence: with no override and nothing existing at the default
config-file path, the code calls `create_dir_all` on the config-file
path itself (`.../config.toml`), not on its parent directory; with an
override path, nothing is created. -/
theorem claim_C8_create_dir_behavior :
    (resolve_config_file none cfg_dir_example (fun _ => false)).2 =
      some (cfg_dir_example ++ ["config.toml"]) ∧
    some cfg_dir_example ≠ some (cfg_dir_example ++ ["config.toml"]) ∧
    (resolve_config_file (some ["override.toml"]) cfg_dir_example
      (fun _ => false)).2 = none := by
  decide
